import Mathlib

/-!
Verification development for the FinDoc Intelligence pattern-based
extraction engine (`src/data_extractor.py`, class `DataExtractor`).

The Python module is shallowly embedded here:
* every regular expression of `_init_patterns` (all compiled with
  `re.IGNORECASE`) is translated into a small regex AST `RE` together with
  a backtracking matcher `mtch` / `search` implementing Python `re.search`
  semantics (leftmost starting position; greedy quantifiers prefer longer,
  lazy quantifiers prefer shorter; alternation is tried left to right;
  `$` matches at the end of the string or just before a terminating
  newline; `.` does not match a newline);
* the character classes `\d`, `\s`, `\w` and the case folding of
  `re.IGNORECASE` are modelled on their ASCII behaviour, which is
  extensionally faithful for every comparison the patterns can perform
  (all pattern literals are ASCII; the non-ASCII class characters £ and €
  are matched exactly);
* Python `int` on the all-digit captures of `(\d+)` is `digitsToNat`;
  Python `float` is the partial `pyFloat?` (on the character set reachable
  from the patterns: digit/dot strings; `float("")` and other invalid
  inputs raise `ValueError`, modelled by `Except PyErr`);
* Python dicts with a fixed key schema are structures of `Option` fields;
  insertion order is recovered by the `pairs` projections;
* `datetime.now().isoformat()` is an explicit `now : String` parameter of
  `extract_all`.
-/

namespace FinDoc

/-! ### Character helpers (ASCII models of Python `re` classes) -/

/-- ASCII lower-casing, the case folding relevant to the ASCII literals of
the patterns under `re.IGNORECASE`. -/
def lowerC (c : Char) : Char :=
  if Nat.ble 65 c.toNat && Nat.ble c.toNat 90 then Char.ofNat (c.toNat + 32) else c

/-- Case-insensitive character equality (`re.IGNORECASE`). -/
def ciEq (a b : Char) : Bool :=
  Nat.beq (lowerC a).toNat (lowerC b).toNat

/-- `lo <= c <= hi` on code points. -/
def inRange (lo hi c : Char) : Bool :=
  Nat.ble lo.toNat c.toNat && Nat.ble c.toNat hi.toNat

/-- Python `\d` (ASCII). -/
def isDigitCh (c : Char) : Bool := inRange '0' '9' c

/-- Python `\s` (ASCII: space, tab, newline, carriage return, vertical tab,
form feed). -/
def isSpaceCh (c : Char) : Bool :=
  c == ' ' || c == '\t' || c == '\n' || c == '\r' || c == '\x0b' || c == '\x0c'

/-- Python `\w` (ASCII). -/
def isWordCh (c : Char) : Bool :=
  inRange 'a' 'z' c || inRange 'A' 'Z' c || isDigitCh c || c == '_'

/-- The character classes occurring in the patterns of `_init_patterns`. -/
inductive CC where
  | dot          -- `.` : any character except newline
  | digit        -- `\d`
  | space        -- `\s`
  | word         -- `\w`
  | digitComma   -- `[\d,]`
  | currency     -- `[£$€]`
  | upAlnum      -- `[A-Z0-9]` under IGNORECASE
  | upAlpha      -- `[A-Z]` under IGNORECASE
  | ratingTail   -- `[A-Z+\-]` under IGNORECASE
deriving DecidableEq

def ccMatch : CC → Char → Bool
  | .dot, c => !(c == '\n')
  | .digit, c => isDigitCh c
  | .space, c => isSpaceCh c
  | .word, c => isWordCh c
  | .digitComma, c => isDigitCh c || c == ','
  | .currency, c => c == '£' || c == '$' || c == '€'
  | .upAlnum, c => inRange 'A' 'Z' c || inRange 'a' 'z' c || isDigitCh c
  | .upAlpha, c => inRange 'A' 'Z' c || inRange 'a' 'z' c
  | .ratingTail, c => inRange 'A' 'Z' c || inRange 'a' 'z' c || c == '+' || c == '-'

/-! ### Regex AST

Quantifiers only ever apply to single-character classes in the source
patterns, so stars and pluses are restricted to `CC`; this keeps the
backtracking matcher structurally terminating. -/

inductive RE where
  | lit : List Char → RE        -- case-insensitive literal sequence
  | one : CC → RE               -- a single class character
  | starG : CC → RE             -- `p*` greedy
  | starL : CC → RE             -- `p*?` lazy
  | plusG : CC → RE             -- `p+` greedy
  | plusL : CC → RE             -- `p+?` lazy
  | repE : Nat → CC → RE        -- `p{n}`
  | reps : Nat → Nat → CC → RE  -- `p{lo,hi}` greedy
  | opt : RE → RE               -- `r?` greedy
  | alt : RE → RE → RE          -- `r1|r2`, left preferred
  | seq : RE → RE → RE
  | grp : RE → RE               -- the single capture group of a pattern
  | eol : RE                    -- `$` (no MULTILINE)

/-- Right-nested sequence of a list of regexes. -/
def cat : List RE → RE
  | [] => .lit []
  | [r] => r
  | r :: rs => .seq r (cat rs)

/-- Consume a case-insensitive literal prefix. -/
def litHere : List Char → List Char → Option (List Char)
  | [], cs => some cs
  | _ :: _, [] => none
  | a :: as, c :: cs => if ciEq a c then litHere as cs else none

/-- `[hi, hi-1, ..., lo]` (empty if `hi < lo`): the candidate repetition
counts of a greedy quantifier, in Python backtracking order. -/
def downFrom (hi lo : Nat) : List Nat :=
  (List.range' lo (hi + 1 - lo)).reverse

/-- `[lo, lo+1, ..., hi]`: candidate counts of a lazy quantifier. -/
def upTo (lo hi : Nat) : List Nat :=
  List.range' lo (hi + 1 - lo)

/-- A continuation receives the remaining input and the group-1 capture
recorded so far; a successful overall match produces the final capture. -/
def Cont : Type := List Char → Option (List Char) → Option (List Char)

/-- Backtracking matcher in continuation-passing style: Python `re`
semantics (quantifier preference order, left-biased alternation). -/
def mtch : RE → List Char → Option (List Char) → Cont → Option (List Char)
  | .lit l, cs, cap, k =>
      match litHere l cs with
      | some rest => k rest cap
      | none => none
  | .one p, cs, cap, k =>
      match cs with
      | [] => none
      | c :: rest => if ccMatch p c then k rest cap else none
  | .starG p, cs, cap, k =>
      let run := (cs.takeWhile (ccMatch p)).length
      (downFrom run 0).findSome? (fun n => k (cs.drop n) cap)
  | .starL p, cs, cap, k =>
      let run := (cs.takeWhile (ccMatch p)).length
      (upTo 0 run).findSome? (fun n => k (cs.drop n) cap)
  | .plusG p, cs, cap, k =>
      let run := (cs.takeWhile (ccMatch p)).length
      (downFrom run 1).findSome? (fun n => k (cs.drop n) cap)
  | .plusL p, cs, cap, k =>
      let run := (cs.takeWhile (ccMatch p)).length
      (upTo 1 run).findSome? (fun n => k (cs.drop n) cap)
  | .repE n p, cs, cap, k =>
      let run := (cs.takeWhile (ccMatch p)).length
      if Nat.ble n run then k (cs.drop n) cap else none
  | .reps lo hi p, cs, cap, k =>
      let run := (cs.takeWhile (ccMatch p)).length
      (downFrom (min hi run) lo).findSome? (fun n => k (cs.drop n) cap)
  | .opt r, cs, cap, k =>
      match mtch r cs cap k with
      | some v => some v
      | none => k cs cap
  | .alt a b, cs, cap, k =>
      match mtch a cs cap k with
      | some v => some v
      | none => mtch b cs cap k
  | .seq a b, cs, cap, k =>
      mtch a cs cap (fun cs2 cap2 => mtch b cs2 cap2 k)
  | .grp r, cs, cap, k =>
      mtch r cs cap (fun cs2 _ => k cs2 (some (cs.take (cs.length - cs2.length))))
  | .eol, cs, cap, k =>
      if cs = [] ∨ cs = ['\n'] then k cs cap else none

/-- Final continuation: succeed, reporting the group-1 capture (every
pattern in the registry contains exactly one mandatory group). -/
def finK : Cont := fun _ cap => some (cap.getD [])

/-- `re.search`: try each starting offset left to right. -/
def searchAux (r : RE) : List Char → Option (List Char)
  | [] => mtch r [] none finK
  | c :: rest =>
      match mtch r (c :: rest) none finK with
      | some m => some m
      | none => searchAux r rest

/-- `pattern.search(text).group(1)` as an `Option`. -/
def search (r : RE) (cs : List Char) : Option (List Char) :=
  searchAux r cs

/-! ### The pattern registry (`DataExtractor._init_patterns`)

Each definition is the translation of one `re.compile(..., re.IGNORECASE)`
entry; the source regex is quoted in the doc comment. -/

/-- Case-insensitive literal. -/
def L (s : String) : RE := .lit s.data

/-- `Company Name:\s*(.+?)(?:\n|$)` -/
def company_name_pat : RE :=
  cat [L ("Company Name:"), .starG .space, .grp (.plusL .dot),
       .alt (L ("\n")) .eol]

/-- `Registration Number:\s*(\d+)` -/
def registration_number_pat : RE :=
  cat [L ("Registration Number:"), .starG .space, .grp (.plusG .digit)]

/-- `LEI Code:\s*([A-Z0-9]{20})` -/
def lei_code_pat : RE :=
  cat [L ("LEI Code:"), .starG .space, .grp (.repE 20 .upAlnum)]

/-- `DUNS Number:\s*(\d{9})` -/
def duns_number_pat : RE :=
  cat [L ("DUNS Number:"), .starG .space, .grp (.repE 9 .digit)]

/-- `Credit Score:\s*(\d+)\s*(?:/|out of)?\s*\d*` -/
def credit_score_pat : RE :=
  cat [L ("Credit Score:"), .starG .space, .grp (.plusG .digit),
       .starG .space, .opt (.alt (L ("/")) (L ("out of"))),
       .starG .space, .starG .digit]

/-- `Credit Rating:\s*([A-Z][A-Z+\-]*)` -/
def credit_rating_pat : RE :=
  cat [L ("Credit Rating:"), .starG .space,
       .grp (.seq (.one .upAlpha) (.starG .ratingTail))]

/-- `Credit Limit.*?[£$€]?\s*([\d,]+)` -/
def credit_limit_pat : RE :=
  cat [L ("Credit Limit"), .starL .dot, .opt (.one .currency),
       .starG .space, .grp (.plusG .digitComma)]

/-- `Risk Level:\s*(.+?)(?:\n|$)` -/
def risk_level_pat : RE :=
  cat [L ("Risk Level:"), .starG .space, .grp (.plusL .dot),
       .alt (L ("\n")) .eol]

/-- `Revenue.*?[£$€]\s*([\d,]+)` -/
def revenue_pat : RE :=
  cat [L ("Revenue"), .starL .dot, .one .currency,
       .starG .space, .grp (.plusG .digitComma)]

/-- `Turnover.*?[£$€]\s*([\d,]+)` -/
def turnover_pat : RE :=
  cat [L ("Turnover"), .starL .dot, .one .currency,
       .starG .space, .grp (.plusG .digitComma)]

/-- `Profit Before Tax.*?[£$€]\s*([\d,]+)` -/
def profit_pat : RE :=
  cat [L ("Profit Before Tax"), .starL .dot, .one .currency,
       .starG .space, .grp (.plusG .digitComma)]

/-- `Total Assets:\s*[£$€]\s*([\d,]+)` -/
def total_assets_pat : RE :=
  cat [L ("Total Assets:"), .starG .space, .one .currency,
       .starG .space, .grp (.plusG .digitComma)]

/-- `Total Liabilities:\s*[£$€]\s*([\d,]+)` -/
def total_liabilities_pat : RE :=
  cat [L ("Total Liabilities:"), .starG .space, .one .currency,
       .starG .space, .grp (.plusG .digitComma)]

/-- `Net Worth:\s*[£$€]\s*([\d,]+)` -/
def net_worth_pat : RE :=
  cat [L ("Net Worth:"), .starG .space, .one .currency,
       .starG .space, .grp (.plusG .digitComma)]

/-- The capture `(\d+\.?\d*)` shared by the three ratio patterns. -/
def numCapture : RE :=
  .grp (cat [.plusG .digit, .opt (L (".")), .starG .digit])

/-- `Debt-to-Equity.*?(\d+\.?\d*)` -/
def debt_to_equity_pat : RE :=
  cat [L ("Debt-to-Equity"), .starL .dot, numCapture]

/-- `Current Ratio:\s*(\d+\.?\d*)` -/
def current_ratio_pat : RE :=
  cat [L ("Current Ratio:"), .starG .space, numCapture]

/-- `Profit Margin:\s*(\d+\.?\d*)%?` -/
def profit_margin_pat : RE :=
  cat [L ("Profit Margin:"), .starG .space, numCapture, .opt (L ("%"))]

/-- `Payment Terms:\s*(.+?)(?:\n|$)` -/
def payment_terms_pat : RE :=
  cat [L ("Payment Terms:"), .starG .space, .grp (.plusL .dot),
       .alt (L ("\n")) .eol]

/-- `On-Time Payments?:\s*\d+\s*\((\d+)%\)` -/
def on_time_percentage_pat : RE :=
  cat [L ("On-Time Payment"), .opt (L ("s")), L (":"), .starG .space,
       .plusG .digit, .starG .space, L ("("), .grp (.plusG .digit),
       L ("%)")]

/-- `Average Payment Days:\s*(\d+)` -/
def average_payment_days_pat : RE :=
  cat [L ("Average Payment Days:"), .starG .space, .grp (.plusG .digit)]

/-- The capture `(\d{1,2}\s+\w+\s+\d{4})` shared by the two date patterns. -/
def dateCapture : RE :=
  .grp (cat [.reps 1 2 .digit, .plusG .space, .plusG .word,
             .plusG .space, .repE 4 .digit])

/-- `Date of Incorporation:\s*(\d{1,2}\s+\w+\s+\d{4})` -/
def incorporation_date_pat : RE :=
  cat [L ("Date of Incorporation:"), .starG .space, dateCapture]

/-- `Report Date:\s*(\d{1,2}\s+\w+\s+\d{4})` -/
def report_date_pat : RE :=
  cat [L ("Report Date:"), .starG .space, dateCapture]

/-! ### Value conversion (Python `int`, `float`, `str.strip`, `str.replace`) -/

/-- The single kind of exception the extraction path can raise:
`ValueError` from `float`. -/
inductive PyErr where
  | valueError
deriving DecidableEq

/-- Decimal digit-string value; agrees with Python `int` on every capture of
`(\d+)` (all such captures are nonempty digit strings). -/
def digitsToNat (cs : List Char) : Nat :=
  cs.foldl (fun n c => n * 10 + (c.toNat - 48)) 0

/-- Python `int(...)` on an all-digit capture, as a Python integer. -/
def pyIntOfDigits (cs : List Char) : Int :=
  Int.ofNat (digitsToNat cs)

/-- `value.replace(",", "")`. -/
def delComma (cs : List Char) : List Char :=
  cs.filter (fun c => !(c == ','))

/-- Python `float(s)` restricted to the character set reachable from the
patterns (digit/dot strings; captures of `[\d,]+` after comma removal and
captures of `(\d+\.?\d*)`): defined iff the string has at least one digit,
at most one dot, and no other character; `none` models `ValueError`
(e.g. `float("")`). Signs, exponents and `inf`/`nan` are unreachable. -/
def pyFloat? (cs : List Char) : Option Rat :=
  if cs.all (fun c => isDigitCh c || c == '.') = false then none
  else if 1 < (cs.filter (fun c => c == '.')).length then none
  else if cs.all (fun c => c == '.') then none
  else
    let ip := cs.takeWhile (fun c => !(c == '.'))
    let fp := (cs.dropWhile (fun c => !(c == '.'))).drop 1
    some (mkRat (Int.ofNat (digitsToNat ip * 10 ^ fp.length + digitsToNat fp))
          (10 ^ fp.length))

/-- An unguarded Python `float(...)` call: raises `ValueError` on an
invalid string. -/
def pyFloatE (cs : List Char) : Except PyErr Rat :=
  match pyFloat? cs with
  | some q => .ok q
  | none => .error .valueError

/-- `str.strip()` (ASCII whitespace model). -/
def pyStrip (cs : List Char) : List Char :=
  ((cs.dropWhile isSpaceCh).reverse.dropWhile isSpaceCh).reverse

/-- `match.group(1).strip()` as a `String`. -/
def pyStripS (cs : List Char) : String := ⟨pyStrip cs⟩

/-- `match.group(1)` as a `String`. -/
def chStr (cs : List Char) : String := ⟨cs⟩

/-! ### The result record (the dict schema of `extract_all`)

Each category dict has a fixed set of possible keys; a structure of
`Option` fields models it (`none` = key absent). -/

structure CompanyInfo where
  company_name : Option String := none
  registration_number : Option String := none
  lei_code : Option String := none
  duns_number : Option String := none
deriving DecidableEq

structure CreditMetrics where
  credit_score : Option Int := none
  credit_rating : Option String := none
  credit_limit : Option Rat := none
  risk_level : Option String := none
deriving DecidableEq

structure FinancialData where
  revenue : Option Rat := none
  profit : Option Rat := none
  total_assets : Option Rat := none
  total_liabilities : Option Rat := none
  net_worth : Option Rat := none
  debt_to_equity : Option Rat := none
  current_ratio_q : Option Rat := none   -- the dict key is "current_ratio"
  profit_margin : Option Rat := none
deriving DecidableEq

structure PaymentInfo where
  payment_terms : Option String := none
  on_time_percentage : Option Int := none
  average_payment_days : Option Int := none
deriving DecidableEq

structure Dates where
  incorporation_date : Option String := none
  report_date : Option String := none
deriving DecidableEq

structure ExtractionSummary where
  total_fields_extracted : Nat
  extraction_complete : Bool
deriving DecidableEq

/-- The full dict built by `extract_all` on nonempty input. -/
structure Extracted where
  extraction_timestamp : String
  company_info : CompanyInfo
  credit_metrics : CreditMetrics
  financial_data : FinancialData
  payment_info : PaymentInfo
  dates : Dates
  extraction_summary : ExtractionSummary
deriving DecidableEq

/-- The two dict shapes `extract_all` can return: the early
`{"error": "No text provided"}` dict, or the full record. -/
inductive ExtractOutcome where
  | errorResult : String → ExtractOutcome
  | full : Extracted → ExtractOutcome
deriving DecidableEq

deriving instance DecidableEq for Except

/-! ### Category extractors -/

/-- `_extract_company_info`. -/
def extract_company_info (text : List Char) : CompanyInfo :=
  { company_name := (search company_name_pat text).map pyStripS
  , registration_number := (search registration_number_pat text).map chStr
  , lei_code := (search lei_code_pat text).map chStr
  , duns_number := (search duns_number_pat text).map chStr }

/-- One `float(match.group(1).replace(",", ""))` block guarded by
`if match:` — the shape shared by the monetary fields. -/
def moneyField (pat : RE) (text : List Char) : Except PyErr (Option Rat) :=
  match search pat text with
  | some m => Except.map some (pyFloatE (delComma m))
  | none => pure none

/-- One `float(match.group(1))` block guarded by `if match:` — the shape
shared by the ratio fields (no comma stripping). -/
def ratioField (pat : RE) (text : List Char) : Except PyErr (Option Rat) :=
  match search pat text with
  | some m => Except.map some (pyFloatE m)
  | none => pure none

/-- `_extract_credit_metrics` (exception plumbing written as explicit
`Except.bind`: the one unguarded `float` is the `credit_limit` block). -/
def extract_credit_metrics (text : List Char) : Except PyErr CreditMetrics :=
  let credit_score := (search credit_score_pat text).map pyIntOfDigits
  let credit_rating := (search credit_rating_pat text).map chStr
  (moneyField credit_limit_pat text).bind fun credit_limit =>
  let risk_level := (search risk_level_pat text).map pyStripS
  .ok { credit_score, credit_rating, credit_limit, risk_level }

/-- The Revenue/Turnover selection at the top of `_extract_financial_data`:
`match = revenue.search(text); if not match: match = turnover.search(text)`. -/
def revenueMatch (text : List Char) : Option (List Char) :=
  match search revenue_pat text with
  | some m => some m
  | none => search turnover_pat text

/-- The `revenue` block of `_extract_financial_data`:
`if match: data["revenue"] = float(match.group(1).replace(",", ""))`. -/
def fdRevenue (text : List Char) : Except PyErr (Option Rat) :=
  match revenueMatch text with
  | some m => Except.map some (pyFloatE (delComma m))
  | none => pure none

/-- `_extract_financial_data` (exception plumbing written as explicit
`Except.bind`; blocks in source order). -/
def extract_financial_data (text : List Char) : Except PyErr FinancialData :=
  (fdRevenue text).bind fun revenue =>
  (moneyField profit_pat text).bind fun profit =>
  (moneyField total_assets_pat text).bind fun total_assets =>
  (moneyField total_liabilities_pat text).bind fun total_liabilities =>
  (moneyField net_worth_pat text).bind fun net_worth =>
  (ratioField debt_to_equity_pat text).bind fun debt_to_equity =>
  (ratioField current_ratio_pat text).bind fun current_ratio_q =>
  (ratioField profit_margin_pat text).bind fun profit_margin =>
  .ok { revenue, profit, total_assets, total_liabilities, net_worth,
        debt_to_equity, current_ratio_q, profit_margin }

/-- `_extract_payment_info`. -/
def extract_payment_info (text : List Char) : PaymentInfo :=
  { payment_terms := (search payment_terms_pat text).map pyStripS
  , on_time_percentage := (search on_time_percentage_pat text).map pyIntOfDigits
  , average_payment_days := (search average_payment_days_pat text).map pyIntOfDigits }

/-- `_extract_dates`. -/
def extract_dates (text : List Char) : Dates :=
  { incorporation_date := (search incorporation_date_pat text).map chStr
  , report_date := (search report_date_pat text).map chStr }

/-! ### Category dicts as ordered key/value lists -/

/-- A Python runtime value stored in a result dict. -/
inductive PyVal where
  | str : String → PyVal
  | int : Int → PyVal
  | flt : Rat → PyVal
  | noneV : PyVal
deriving DecidableEq

/-- One conditional `dict[key] = value` insertion. -/
def optPair (k : String) : Option PyVal → List (String × PyVal)
  | some v => [(k, v)]
  | none => []

/-- The `company_info` dict in insertion order. -/
def CompanyInfo.pairs (c : CompanyInfo) : List (String × PyVal) :=
  optPair ("company_name") (c.company_name.map .str)
  ++ optPair ("registration_number") (c.registration_number.map .str)
  ++ optPair ("lei_code") (c.lei_code.map .str)
  ++ optPair ("duns_number") (c.duns_number.map .str)

/-- The `credit_metrics` dict in insertion order. -/
def CreditMetrics.pairs (c : CreditMetrics) : List (String × PyVal) :=
  optPair ("credit_score") (c.credit_score.map .int)
  ++ optPair ("credit_rating") (c.credit_rating.map .str)
  ++ optPair ("credit_limit") (c.credit_limit.map .flt)
  ++ optPair ("risk_level") (c.risk_level.map .str)

/-- The `financial_data` dict in insertion order. -/
def FinancialData.pairs (f : FinancialData) : List (String × PyVal) :=
  optPair ("revenue") (f.revenue.map .flt)
  ++ optPair ("profit") (f.profit.map .flt)
  ++ optPair ("total_assets") (f.total_assets.map .flt)
  ++ optPair ("total_liabilities") (f.total_liabilities.map .flt)
  ++ optPair ("net_worth") (f.net_worth.map .flt)
  ++ optPair ("debt_to_equity") (f.debt_to_equity.map .flt)
  ++ optPair ("current_ratio") (f.current_ratio_q.map .flt)
  ++ optPair ("profit_margin") (f.profit_margin.map .flt)

/-- The `payment_info` dict in insertion order. -/
def PaymentInfo.pairs (p : PaymentInfo) : List (String × PyVal) :=
  optPair ("payment_terms") (p.payment_terms.map .str)
  ++ optPair ("on_time_percentage") (p.on_time_percentage.map .int)
  ++ optPair ("average_payment_days") (p.average_payment_days.map .int)

/-- The `dates` dict in insertion order. -/
def Dates.pairs (d : Dates) : List (String × PyVal) :=
  optPair ("incorporation_date") (d.incorporation_date.map .str)
  ++ optPair ("report_date") (d.report_date.map .str)

/-- `_count_extracted_fields`: sums `len(extracted[category])` over the
five category dicts (all present in the full record). -/
def count_extracted_fields (ci : CompanyInfo) (cm : CreditMetrics)
    (fd : FinancialData) (pyi : PaymentInfo) (dt : Dates) : Nat :=
  ci.pairs.length + cm.pairs.length + fd.pairs.length
    + pyi.pairs.length + dt.pairs.length

/-- `extract_all`. `now` is the value of `datetime.now().isoformat()` at
the moment of the call; a Python string is falsy exactly when it is empty,
so `if not text:` is `text = ""`. Exceptions escaping the unguarded
`float` calls surface as `Except.error`. -/
def extract_all (now : String) (text : String) : Except PyErr ExtractOutcome :=
  if text = "" then .ok (.errorResult ("No text provided"))
  else
    let t := text.data
    let ci := extract_company_info t
    (extract_credit_metrics t).bind fun cm =>
    (extract_financial_data t).bind fun fd =>
    let pyi := extract_payment_info t
    let dt := extract_dates t
    let total := count_extracted_fields ci cm fd pyi dt
    .ok (.full
      { extraction_timestamp := now
      , company_info := ci
      , credit_metrics := cm
      , financial_data := fd
      , payment_info := pyi
      , dates := dt
      , extraction_summary :=
          { total_fields_extracted := total
          , extraction_complete := decide (0 < total) } })

/-! ### Output adapter: flat record (`format_for_duckdb`) -/

/-- `format_for_duckdb`: starts from `{"document_id": document_id}`
(the parameter defaults to `None` in the source, hence `Option Int`) and
`update`s in the four non-date category dicts; the error dict contains
none of the four category keys, so it contributes nothing. The category
key sets are pairwise disjoint and distinct from `"document_id"`, so
`dict.update` is list concatenation. -/
def format_for_duckdb (extracted : ExtractOutcome) (document_id : Option Int) :
    List (String × PyVal) :=
  ("document_id", match document_id with
                  | some n => PyVal.int n
                  | none => PyVal.noneV)
  :: match extracted with
     | .errorResult _ => []
     | .full r =>
         r.company_info.pairs ++ r.credit_metrics.pairs
           ++ r.financial_data.pairs ++ r.payment_info.pairs

/-! ### Output adapter: human-readable report (`format_for_display`) -/

/-- `s * n` for strings (`"=" * 80`). -/
def pyRepeat (s : String) (n : Nat) : String :=
  String.join (List.replicate n s)

/-- ASCII upper-casing. -/
def upperC (c : Char) : Char :=
  if Nat.ble 97 c.toNat && Nat.ble c.toNat 122 then Char.ofNat (c.toNat - 32) else c

/-- Worker for Python `str.title()` (ASCII letters model): a letter that
does not follow a letter is upper-cased, other letters are lower-cased. -/
def titleGo : Bool → List Char → List Char
  | _, [] => []
  | prevAl, c :: cs =>
      let isAl := inRange 'a' 'z' c || inRange 'A' 'Z' c
      (if isAl then (if prevAl then lowerC c else upperC c) else c)
        :: titleGo isAl cs

/-- Python `str.title()`. -/
def pyTitle (s : String) : String := ⟨titleGo false s.data⟩

/-- `key.replace("_", " ").title()`. -/
def fieldLabel (k : String) : String :=
  pyTitle ⟨k.data.map (fun c => if c == '_' then ' ' else c)⟩

/-- Exact decimal rendering of a rational whose denominator divides a
power of ten — every numeric value the extractor can build is of this
form, and on those values this agrees with Python `str(float)` (integers
get a trailing `.0`, fractional values print their shortest exact
expansion). -/
def ratToDecimalStr (q : Rat) : String :=
  let sign := if q < 0 then ("-") else ("")
  let n := q.num.natAbs
  let d := q.den
  match (List.range 40).find? (fun k => decide (d ∣ 10 ^ k)) with
  | some k =>
      let scaled := n * (10 ^ k / d)
      let ipart := toString (scaled / 10 ^ k)
      if k = 0 then sign ++ ipart ++ ".0"
      else
        let digs := toString (scaled % 10 ^ k)
        let frac := pyRepeat ("0") (k - digs.length) ++ digs
        sign ++ ipart ++ "." ++ frac
  | none => sign ++ toString n ++ "/" ++ toString d

/-- Python `str()` / f-string rendering of a stored value. -/
def pyStrVal : PyVal → String
  | .str s => s
  | .int n => toString n
  | .flt q => ratToDecimalStr q
  | .noneV => "None"

def PyVal.isNum : PyVal → Bool
  | .int _ => true
  | .flt _ => true
  | _ => false

def PyVal.toRat : PyVal → Rat
  | .int n => (n : Rat)
  | .flt q => q
  | _ => 0

/-- Round half to even to an integer: the rounding of the Python `.0f`
format on the (exact-decimal) values reachable here. -/
def roundHalfEven (q : Rat) : Int :=
  let f := q.floor
  let r := q - (f : Rat)
  if r < 1 / 2 then f
  else if (1 : Rat) / 2 < r then f + 1
  else if f % 2 = 0 then f else f + 1

/-- Insert a thousands separator after every three digits of a reversed
digit list. -/
def groupRev : List Char → List Char
  | a :: b :: c :: d :: rest => a :: b :: c :: ',' :: groupRev (d :: rest)
  | l => l

/-- Python format spec `,.0f` applied to `q`. -/
def fmtComma0f (q : Rat) : String :=
  let i := roundHalfEven q
  (if i < 0 then ("-") else (""))
    ++ ⟨(groupRev (toString i.natAbs).data.reverse).reverse⟩

/-- Python `sub in s` (case-sensitive substring test). -/
def containsSub (pat : List Char) : List Char → Bool
  | [] => pat.isEmpty
  | c :: cs => pat.isPrefixOf (c :: cs) || containsSub pat cs

/-- The COMPANY INFORMATION section (emitted when the category dict is
truthy, i.e. nonempty). -/
def displayCompany (c : CompanyInfo) : List String :=
  if c.pairs.isEmpty then [] else
    ["📊 COMPANY INFORMATION", pyRepeat ("-") 80]
    ++ c.pairs.map (fun kv => "  " ++ fieldLabel kv.1 ++ ": " ++ pyStrVal kv.2)
    ++ [""]

/-- The CREDIT METRICS section: `"limit" in key` and a numeric value
selects pound formatting. -/
def displayCredit (c : CreditMetrics) : List String :=
  if c.pairs.isEmpty then [] else
    ["💳 CREDIT METRICS", pyRepeat ("-") 80]
    ++ c.pairs.map (fun kv =>
        if containsSub (("limit").data) kv.1.data && kv.2.isNum then
          ("  ") ++ fieldLabel kv.1 ++ ": £" ++ fmtComma0f kv.2.toRat
        else
          ("  ") ++ fieldLabel kv.1 ++ ": " ++ pyStrVal kv.2)
    ++ [""]

/-- The FINANCIAL DATA section: a float value above 1000 selects pound
formatting. -/
def displayFinancial (f : FinancialData) : List String :=
  if f.pairs.isEmpty then [] else
    ["💰 FINANCIAL DATA", pyRepeat ("-") 80]
    ++ f.pairs.map (fun kv =>
        match kv.2 with
        | .flt q =>
            if 1000 < q then ("  ") ++ fieldLabel kv.1 ++ ": £" ++ fmtComma0f q
            else ("  ") ++ fieldLabel kv.1 ++ ": " ++ pyStrVal kv.2
        | v => "  " ++ fieldLabel kv.1 ++ ": " ++ pyStrVal v)
    ++ [""]

/-- The PAYMENT INFORMATION section: `"percentage" in key` appends `%`. -/
def displayPayment (p : PaymentInfo) : List String :=
  if p.pairs.isEmpty then [] else
    ["💳 PAYMENT INFORMATION", pyRepeat ("-") 80]
    ++ p.pairs.map (fun kv =>
        if containsSub (("percentage").data) kv.1.data then
          ("  ") ++ fieldLabel kv.1 ++ ": " ++ pyStrVal kv.2 ++ "%"
        else
          ("  ") ++ fieldLabel kv.1 ++ ": " ++ pyStrVal kv.2)
    ++ [""]

/-- The EXTRACTION SUMMARY section (the summary dict is always nonempty,
hence truthy, in the full record; the error dict has no summary). -/
def displaySummary (s : ExtractionSummary) : List String :=
  ["📈 EXTRACTION SUMMARY", pyRepeat ("-") 80,
   "  Total Fields Extracted: " ++ toString s.total_fields_extracted,
   "  Extraction Status: "
     ++ (if s.extraction_complete then ("✅ Complete") else ("❌ Failed"))]

/-- `format_for_display`. The Python body only reads from `extracted`
(`.get`, `.items()`, indexing), so the embedding returns the report
together with the post-state of the argument, which is the argument
itself. -/
def format_for_display (extracted : ExtractOutcome) : String × ExtractOutcome :=
  let lines :=
    [pyRepeat ("=") 80, "EXTRACTED FINANCIAL DATA", pyRepeat ("=") 80, ""]
    ++ (match extracted with
        | .errorResult _ => []
        | .full r =>
            displayCompany r.company_info
            ++ displayCredit r.credit_metrics
            ++ displayFinancial r.financial_data
            ++ displayPayment r.payment_info
            ++ displaySummary r.extraction_summary)
    ++ ["", pyRepeat ("=") 80]
  (String.intercalate ("\n") lines, extracted)

/-! ### Views used by the claims -/

/-- `result["extraction_summary"]["total_fields_extracted"]`, when the
summary key exists. -/
def ExtractOutcome.fieldCount? : ExtractOutcome → Option Nat
  | .errorResult _ => none
  | .full r => some r.extraction_summary.total_fields_extracted

/-- `result["extraction_summary"]["extraction_complete"]`, when the
summary key exists. -/
def ExtractOutcome.complete? : ExtractOutcome → Option Bool
  | .errorResult _ => none
  | .full r => some r.extraction_summary.extraction_complete

/-- All present fields across the five category dicts — the `fields`
mapping of the spec. -/
def ExtractOutcome.allFields : ExtractOutcome → List (String × PyVal)
  | .errorResult _ => []
  | .full r =>
      r.company_info.pairs ++ r.credit_metrics.pairs ++ r.financial_data.pairs
        ++ r.payment_info.pairs ++ r.dates.pairs

/-- Erase the informational `extraction_timestamp` from an outcome. -/
def eraseTs : Except PyErr ExtractOutcome → Except PyErr ExtractOutcome :=
  Except.map (fun o =>
    match o with
    | .errorResult m => .errorResult m
    | .full r => .full { r with extraction_timestamp := "" })

/-- The end-to-end scenario input of the spec: five label-colon-value
lines. -/
def endToEndText : String :=
  "Registration Number: 08765432\nCredit Score: 75 / 100\nCredit Rating: B+ (Good)\nRevenue (Turnover): £4,850,000\nCurrent Ratio: 1.85"

/-- Every key `format_for_duckdb` can ever emit: `document_id` plus the
keys of the four merged categories (the two date keys are absent). -/
def duckdbKeys : List String :=
  ["document_id",
   "company_name", "registration_number", "lei_code", "duns_number",
   "credit_score", "credit_rating", "credit_limit", "risk_level",
   "revenue", "profit", "total_assets", "total_liabilities", "net_worth",
   "debt_to_equity", "current_ratio", "profit_margin",
   "payment_terms", "on_time_percentage", "average_payment_days"]

/-- The record `extract_all` produces on the single line
`Current Ratio: 1.85` — a concrete instantiation input. -/
def crRecord : Extracted :=
  { extraction_timestamp := "T"
  , company_info := {}
  , credit_metrics := {}
  , financial_data := { current_ratio_q := some (mkRat 185 100) }
  , payment_info := {}
  , dates := {}
  , extraction_summary := { total_fields_extracted := 1, extraction_complete := true } }

/-! ## Helper lemmas -/

theorem optPair_key {k : String} {v : Option PyVal} {x : String × PyVal}
    (h : x ∈ optPair k v) : x.1 = k := by
  cases v with
  | none => simp [optPair] at h
  | some w => simp [optPair] at h; simp [h]

theorem optPair_val {k : String} {v : Option PyVal} {x : String × PyVal}
    (h : x ∈ optPair k v) : some x.2 = v := by
  cases v with
  | none => simp [optPair] at h
  | some w => simp [optPair] at h; simp [h]

theorem map_val_ne_noneV {α : Type} {f : α → PyVal} (hf : ∀ a, f a ≠ PyVal.noneV)
    {x : PyVal} {o : Option α} (h : some x = o.map f) : x ≠ PyVal.noneV := by
  cases o with
  | none => simp at h
  | some a => simp at h; rw [h]; exact hf a

theorem companyInfo_pairs_key {c : CompanyInfo} {x : String × PyVal}
    (h : x ∈ c.pairs) :
    x.1 = "company_name" ∨ x.1 = "registration_number"
      ∨ x.1 = "lei_code" ∨ x.1 = "duns_number" := by
  simp only [CompanyInfo.pairs, List.mem_append] at h
  rcases h with ((h | h) | h) | h
  · exact Or.inl (optPair_key h)
  · exact Or.inr (Or.inl (optPair_key h))
  · exact Or.inr (Or.inr (Or.inl (optPair_key h)))
  · exact Or.inr (Or.inr (Or.inr (optPair_key h)))

theorem creditMetrics_pairs_key {c : CreditMetrics} {x : String × PyVal}
    (h : x ∈ c.pairs) :
    x.1 = "credit_score" ∨ x.1 = "credit_rating"
      ∨ x.1 = "credit_limit" ∨ x.1 = "risk_level" := by
  simp only [CreditMetrics.pairs, List.mem_append] at h
  rcases h with ((h | h) | h) | h
  · exact Or.inl (optPair_key h)
  · exact Or.inr (Or.inl (optPair_key h))
  · exact Or.inr (Or.inr (Or.inl (optPair_key h)))
  · exact Or.inr (Or.inr (Or.inr (optPair_key h)))

theorem financialData_pairs_key {f : FinancialData} {x : String × PyVal}
    (h : x ∈ f.pairs) :
    x.1 = "revenue" ∨ x.1 = "profit" ∨ x.1 = "total_assets"
      ∨ x.1 = "total_liabilities" ∨ x.1 = "net_worth" ∨ x.1 = "debt_to_equity"
      ∨ x.1 = "current_ratio" ∨ x.1 = "profit_margin" := by
  simp only [FinancialData.pairs, List.mem_append] at h
  rcases h with ((((((h | h) | h) | h) | h) | h) | h) | h
  · exact Or.inl (optPair_key h)
  · exact Or.inr (Or.inl (optPair_key h))
  · exact Or.inr (Or.inr (Or.inl (optPair_key h)))
  · exact Or.inr (Or.inr (Or.inr (Or.inl (optPair_key h))))
  · exact Or.inr (Or.inr (Or.inr (Or.inr (Or.inl (optPair_key h)))))
  · exact Or.inr (Or.inr (Or.inr (Or.inr (Or.inr (Or.inl (optPair_key h))))))
  · exact Or.inr (Or.inr (Or.inr (Or.inr (Or.inr (Or.inr (Or.inl (optPair_key h)))))))
  · exact Or.inr (Or.inr (Or.inr (Or.inr (Or.inr (Or.inr (Or.inr (optPair_key h)))))))

theorem paymentInfo_pairs_key {p : PaymentInfo} {x : String × PyVal}
    (h : x ∈ p.pairs) :
    x.1 = "payment_terms" ∨ x.1 = "on_time_percentage"
      ∨ x.1 = "average_payment_days" := by
  simp only [PaymentInfo.pairs, List.mem_append] at h
  rcases h with (h | h) | h
  · exact Or.inl (optPair_key h)
  · exact Or.inr (Or.inl (optPair_key h))
  · exact Or.inr (Or.inr (optPair_key h))

theorem companyInfo_pairs_val {c : CompanyInfo} {x : String × PyVal}
    (h : x ∈ c.pairs) : x.2 ≠ PyVal.noneV := by
  simp only [CompanyInfo.pairs, List.mem_append] at h
  rcases h with ((h | h) | h) | h <;>
    exact map_val_ne_noneV (fun a hx => PyVal.noConfusion hx) (optPair_val h)

theorem creditMetrics_pairs_val {c : CreditMetrics} {x : String × PyVal}
    (h : x ∈ c.pairs) : x.2 ≠ PyVal.noneV := by
  simp only [CreditMetrics.pairs, List.mem_append] at h
  rcases h with ((h | h) | h) | h <;>
    exact map_val_ne_noneV (fun a hx => PyVal.noConfusion hx) (optPair_val h)

theorem financialData_pairs_val {f : FinancialData} {x : String × PyVal}
    (h : x ∈ f.pairs) : x.2 ≠ PyVal.noneV := by
  simp only [FinancialData.pairs, List.mem_append] at h
  rcases h with ((((((h | h) | h) | h) | h) | h) | h) | h <;>
    exact map_val_ne_noneV (fun a hx => PyVal.noConfusion hx) (optPair_val h)

theorem paymentInfo_pairs_val {p : PaymentInfo} {x : String × PyVal}
    (h : x ∈ p.pairs) : x.2 ≠ PyVal.noneV := by
  simp only [PaymentInfo.pairs, List.mem_append] at h
  rcases h with (h | h) | h <;>
    exact map_val_ne_noneV (fun a hx => PyVal.noConfusion hx) (optPair_val h)

/-- Every key of a flat record is one of the twenty `duckdbKeys`. -/
theorem duckdb_key_mem {e : ExtractOutcome} {d : Option Int} {x : String × PyVal}
    (h : x ∈ format_for_duckdb e d) : x.1 ∈ duckdbKeys := by
  unfold format_for_duckdb at h
  rcases List.mem_cons.mp h with h | h
  · rw [h]; simp [duckdbKeys]
  · cases e with
    | errorResult m => simp at h
    | full r =>
        simp only [List.mem_append] at h
        rcases h with ((h | h) | h) | h
        · rcases companyInfo_pairs_key h with h1 | h1 | h1 | h1 <;>
            simp [duckdbKeys, h1]
        · rcases creditMetrics_pairs_key h with h1 | h1 | h1 | h1 <;>
            simp [duckdbKeys, h1]
        · rcases financialData_pairs_key h with h1 | h1 | h1 | h1 | h1 | h1 | h1 | h1 <;>
            simp [duckdbKeys, h1]
        · rcases paymentInfo_pairs_key h with h1 | h1 | h1 <;>
            simp [duckdbKeys, h1]

/-! ## Claim theorems -/

/-- C1: the spec claims `extract_all` returns a result dictionary and
never raises for any string input, a failed value conversion only
omitting that one field. The code contradicts this: on the input
`Revenue: £,` the revenue pattern captures only a comma, comma removal
leaves the empty string, and the unguarded Python `float` call raises
`ValueError`, which escapes `extract_all`. -/
theorem C1_totality_violated :
    extract_all ("T") ("Revenue: £,") = .error .valueError := rfl

/-- C2 (counterexample): the claim as stated is false — on empty input
the returned dict is exactly the error dict `{error: No text provided}`;
it has no extraction summary at all, so it has no field_count equal to 0
and no complete flag equal to false. -/
theorem C2_counterexample :
    extract_all ("T") ("") = .ok (.errorResult ("No text provided"))
  ∧ (ExtractOutcome.errorResult ("No text provided")).fieldCount? = Option.none
  ∧ (ExtractOutcome.errorResult ("No text provided")).complete? = Option.none :=
  ⟨rfl, rfl, rfl⟩

/-- C2 (amended): `extract_all` on empty (falsy) input returns the
error-state dict carrying the explicit no-text signal; it contains no
category mappings — hence zero extracted fields — and no summary keys. -/
theorem C2_empty_input (now : String) :
    extract_all now ("") = .ok (.errorResult ("No text provided"))
  ∧ (ExtractOutcome.errorResult ("No text provided")).allFields = [] :=
  ⟨rfl, rfl⟩

/-- C3: on the five-line end-to-end scenario text, extraction yields
exactly registration_number 08765432, credit_score 75, credit_rating B+,
revenue 4850000.0 and current_ratio 1.85, with field count 5 and the
complete flag true. -/
theorem C3_end_to_end (now : String) :
    extract_all now endToEndText = .ok (.full
      { extraction_timestamp := now
      , company_info := { registration_number := some ("08765432") }
      , credit_metrics := { credit_score := some 75, credit_rating := some ("B+") }
      , financial_data := { revenue := some (mkRat 4850000 1)
                          , current_ratio_q := some (mkRat 185 100) }
      , payment_info := {}
      , dates := {}
      , extraction_summary := { total_fields_extracted := 5
                              , extraction_complete := true } })
  ∧ mkRat 4850000 1 = (4850000 : Rat)
  ∧ mkRat 185 100 = (1.85 : Rat) :=
  ⟨rfl, by rw [Rat.mkRat_eq_div]; norm_num,
        by rw [Rat.mkRat_eq_div]; norm_num⟩

/-- C4 (counterexample): the universally quantified half of the claim is
false — this text contains `Turnover: £4,850,000` and no Revenue label,
yet the revenue field is populated from the earlier first Turnover match
with 99, not 4850000. -/
theorem C4_counterexample :
    containsSub (("Turnover: £4,850,000").data)
        (("Turnover: £99\nTurnover: £4,850,000").data) = true
  ∧ containsSub (("Revenue").data)
        (("Turnover: £99\nTurnover: £4,850,000").data) = false
  ∧ search revenue_pat (("Turnover: £99\nTurnover: £4,850,000").data)
      = Option.none
  ∧ extract_all ("T") ("Turnover: £99\nTurnover: £4,850,000") = .ok (.full
      { extraction_timestamp := "T"
      , company_info := {}
      , credit_metrics := {}
      , financial_data := { revenue := some (mkRat 99 1) }
      , payment_info := {}
      , dates := {}
      , extraction_summary := { total_fields_extracted := 1
                              , extraction_complete := true } })
  ∧ mkRat 99 1 = (99 : Rat) :=
  ⟨rfl, rfl, rfl, rfl, by rw [Rat.mkRat_eq_div]; norm_num⟩

/-- C4 (amended): the Revenue matcher is tried first and on success the
Turnover matcher is skipped; when Revenue does not match, the first
Turnover match supplies the value, and in particular a first Turnover
capture of 4,850,000 populates revenue with 4850000; the revenue field of
a successful financial-data extraction is exactly this selected value. -/
theorem C4_revenue_priority (t : List Char) :
    (∀ m, search revenue_pat t = some m →
        fdRevenue t = Except.map some (pyFloatE (delComma m)))
  ∧ (∀ m, search revenue_pat t = Option.none → search turnover_pat t = some m →
        fdRevenue t = Except.map some (pyFloatE (delComma m)))
  ∧ (search revenue_pat t = Option.none →
      search turnover_pat t = some (("4,850,000").data) →
        fdRevenue t = .ok (some (mkRat 4850000 1)))
  ∧ (∀ fd, extract_financial_data t = .ok fd → fdRevenue t = .ok fd.revenue) := by
  refine ⟨?_, ?_, ?_, ?_⟩
  · intro m hm; simp [fdRevenue, revenueMatch, hm]
  · intro m h1 h2; simp [fdRevenue, revenueMatch, h1, h2]
  · intro h1 h2
    simp only [fdRevenue, revenueMatch, h1, h2]
    rfl
  · intro fd h
    simp only [extract_financial_data] at h
    cases hr : fdRevenue t <;> rw [hr] at h <;> simp only [Except.bind] at h
    · simp at h
    · cases hA : moneyField profit_pat t <;> rw [hA] at h <;>
        simp only [Except.bind] at h
      · simp at h
      · cases hB : moneyField total_assets_pat t <;> rw [hB] at h <;>
          simp only [Except.bind] at h
        · simp at h
        · cases hC : moneyField total_liabilities_pat t <;> rw [hC] at h <;>
            simp only [Except.bind] at h
          · simp at h
          · cases hD : moneyField net_worth_pat t <;> rw [hD] at h <;>
              simp only [Except.bind] at h
            · simp at h
            · cases hE : ratioField debt_to_equity_pat t <;> rw [hE] at h <;>
                simp only [Except.bind] at h
              · simp at h
              · cases hF : ratioField current_ratio_pat t <;> rw [hF] at h <;>
                  simp only [Except.bind] at h
                · simp at h
                · cases hG : ratioField profit_margin_pat t <;> rw [hG] at h <;>
                    simp only [Except.bind] at h
                  · simp at h
                  · simp only [Except.ok.injEq] at h
                    subst h
                    simp [hr]

/-- C4 witness: the concrete fallback scenario, with both hypotheses of
the third conjunct discharged at `Turnover: £4,850,000`. -/
theorem C4_revenue_priority_witness :
    search revenue_pat (("Turnover: £4,850,000").data) = Option.none
  ∧ search turnover_pat (("Turnover: £4,850,000").data)
      = some (("4,850,000").data)
  ∧ fdRevenue (("Turnover: £4,850,000").data) = .ok (some (mkRat 4850000 1)) :=
  ⟨rfl, rfl, (C4_revenue_priority _).2.2.1 rfl rfl⟩

/-- C5 (counterexample): two invocations of `extract_all` on the same
text with different clock readings yield different result dicts — they
differ in extraction_timestamp — so the full result is not a pure
function of the input text alone. -/
theorem C5_counterexample :
    extract_all ("2024-01-01T00:00:00") ("Current Ratio: 1.85")
      ≠ extract_all ("2024-01-01T00:00:01") ("Current Ratio: 1.85") := by
  decide

/-- C5 (amended): apart from the informational extraction_timestamp — the
wall-clock reading at call time — the result is a pure function of the
input text: erasing the timestamp, any two invocations agree. -/
theorem C5_deterministic_up_to_timestamp (n1 n2 t : String) :
    eraseTs (extract_all n1 t) = eraseTs (extract_all n2 t) := by
  by_cases h : t = ""
  · simp [extract_all, h]
  · simp only [extract_all, if_neg h]
    cases h1 : extract_credit_metrics t.data <;>
      cases h2 : extract_financial_data t.data <;>
        simp [h1, h2, Except.bind, eraseTs, Except.map]

/-- C6: for every full record produced on nonempty text, the stored
field count equals the number of fields present across the five category
dicts, and the complete flag holds exactly when that count is positive. -/
theorem C6_count_and_complete (now text : String) (hne : text ≠ "")
    (r : Extracted) (h : extract_all now text = .ok (.full r)) :
    r.extraction_summary.total_fields_extracted
      = count_extracted_fields r.company_info r.credit_metrics
          r.financial_data r.payment_info r.dates
  ∧ (r.extraction_summary.extraction_complete = true
      ↔ 0 < r.extraction_summary.total_fields_extracted) := by
  simp only [extract_all, if_neg hne] at h
  cases h1 : extract_credit_metrics text.data <;> rw [h1] at h <;>
    simp only [Except.bind] at h
  · simp at h
  · cases h2 : extract_financial_data text.data <;> rw [h2] at h <;>
      simp only [Except.bind] at h
    · simp at h
    · simp only [Except.ok.injEq, ExtractOutcome.full.injEq] at h
      subst h
      exact ⟨rfl, by simp⟩

/-- C6 witness at the concrete one-line input `Current Ratio: 1.85`. -/
theorem C6_count_and_complete_witness :
    crRecord.extraction_summary.total_fields_extracted
      = count_extracted_fields crRecord.company_info crRecord.credit_metrics
          crRecord.financial_data crRecord.payment_info crRecord.dates
  ∧ (crRecord.extraction_summary.extraction_complete = true
      ↔ 0 < crRecord.extraction_summary.total_fields_extracted) :=
  C6_count_and_complete ("T") ("Current Ratio: 1.85") (by decide) crRecord rfl

/-- C7: the flat record merges only the four non-date categories and
excludes the Dates category entirely: no key of any `format_for_duckdb`
output is `incorporation_date` (or `report_date`). -/
theorem C7_flat_record_excludes_dates (e : ExtractOutcome) (d : Option Int) :
    (format_for_duckdb e d).all
      (fun kv => !(kv.1 == "incorporation_date")
              && !(kv.1 == "report_date")) = true := by
  rw [List.all_eq_true]
  intro kv hkv
  have hk := duckdb_key_mem hkv
  simp only [duckdbKeys, List.mem_cons, List.not_mem_nil, or_false] at hk
  rcases hk with h|h|h|h|h|h|h|h|h|h|h|h|h|h|h|h|h|h|h|h <;> simp [h]

/-- C8 (counterexample): the claim as stated is false — with the default
`document_id=None` argument the flat record maps the key document_id to
an explicit null. -/
theorem C8_counterexample :
    format_for_duckdb (.errorResult ("No text provided")) Option.none
      = [(("document_id"), PyVal.noneV)] := rfl

/-- C8 (amended): the only key of a flat record that can carry a null
value is document_id, and only when the document_id argument itself is
None; every merged extraction field is a string, integer or float. -/
theorem C8_no_null_fields (e : ExtractOutcome) (d : Option Int)
    (k : String) (v : PyVal)
    (hmem : (k, v) ∈ format_for_duckdb e d) (hv : v = PyVal.noneV) :
    k = "document_id" ∧ d = Option.none := by
  subst hv
  unfold format_for_duckdb at hmem
  rcases List.mem_cons.mp hmem with h | h
  · cases d with
    | none => simp at h; simp [h]
    | some n => simp at h
  · cases e with
    | errorResult m => simp at h
    | full r =>
        simp only [List.mem_append] at h
        rcases h with ((h | h) | h) | h
        · exact absurd rfl (companyInfo_pairs_val h)
        · exact absurd rfl (creditMetrics_pairs_val h)
        · exact absurd rfl (financialData_pairs_val h)
        · exact absurd rfl (paymentInfo_pairs_val h)

/-- C8 witness: the amended claim instantiated at the concrete record of
the counterexample input. -/
theorem C8_no_null_fields_witness :
    ((("document_id"), PyVal.noneV)
        ∈ format_for_duckdb (.errorResult ("No text provided")) Option.none)
  ∧ (("document_id" : String) = "document_id"
      ∧ (Option.none : Option Int) = Option.none) :=
  ⟨by decide,
   C8_no_null_fields (.errorResult ("No text provided")) Option.none
     ("document_id") PyVal.noneV (by decide) rfl⟩

/-- C9 (counterexample): the claim as stated is false — on the input
`Company Name: ` followed by a tab, the captured group is the tab, strip
leaves the empty string, and the company_name field is stored as the
empty string instead of being treated as no match. -/
theorem C9_counterexample :
    extract_all ("T") ("Company Name: \t") = .ok (.full
      { extraction_timestamp := "T"
      , company_info := { company_name := some ("") }
      , credit_metrics := {}
      , financial_data := {}
      , payment_info := {}
      , dates := {}
      , extraction_summary := { total_fields_extracted := 1
                              , extraction_complete := true } }) := rfl

/-- C9 (amended): for the trimmed String-kind fields (company_name,
risk_level, payment_terms) the stored value is the captured substring
with surrounding whitespace stripped; a capture that is whitespace-only
is stored as the empty string, not treated as no match. -/
theorem C9_trimmed_fields (t : List Char) :
    (∀ m, search company_name_pat t = some m →
        (extract_company_info t).company_name = some (pyStripS m))
  ∧ (∀ m cm, search risk_level_pat t = some m →
        extract_credit_metrics t = .ok cm → cm.risk_level = some (pyStripS m))
  ∧ (∀ m, search payment_terms_pat t = some m →
        (extract_payment_info t).payment_terms = some (pyStripS m)) := by
  refine ⟨?_, ?_, ?_⟩
  · intro m hm; simp [extract_company_info, hm]
  · intro m cm hm hcm
    simp only [extract_credit_metrics] at hcm
    cases h1 : moneyField credit_limit_pat t <;> rw [h1] at hcm <;>
      simp only [Except.bind] at hcm
    · simp at hcm
    · simp only [Except.ok.injEq] at hcm
      subst hcm
      simp [hm]
  · intro m hm; simp [extract_payment_info, hm]

/-- C9 witness: the first conjunct instantiated on a concrete capture. -/
theorem C9_trimmed_fields_witness :
    search company_name_pat (("Company Name:  Acme Ltd").data)
      = some (("Acme Ltd").data)
  ∧ (extract_company_info (("Company Name:  Acme Ltd").data)).company_name
      = some (pyStripS (("Acme Ltd").data)) :=
  ⟨rfl, (C9_trimmed_fields _).1 _ rfl⟩

/-- C10: the human-readable projection is pure — the post-state of its
argument equals the argument, for every extraction outcome. -/
theorem C10_display_pure (extracted : ExtractOutcome) :
    (format_for_display extracted).2 = extracted := rfl

end FinDoc
